import Mathlib

/-!
Verification of the TeamSpeak ServerQuery client in src/plugin.py.

The embedding models Python strings as lists of characters (abbrev Str),
Python dicts as association lists updated in place (dictSet / dictGet?),
Python exceptions as Except values, and the network as a scripted
transcript of response byte strings consumed in order.  Every definition
below is translated from the function of src/plugin.py named in its doc
comment; the few places where a Python library routine (str.splitlines,
str.strip, int, bytes.decode) is modelled rather than copied are noted
in place.
-/

set_option maxRecDepth 10000

/-- A Python string, modelled as its list of characters. -/
abbrev Str := List Char

/-- The characters of a Lean string literal, for writing Str constants. -/
def str (s : String) : Str := s.data

/-- Whether the pattern list is an initial segment of the second list
(Python str.startswith). -/
def startsWith : Str → Str → Bool
  | [], _ => true
  | _ :: _, [] => false
  | p :: ps, c :: cs => p = c && startsWith ps cs

/-- Python str.split(sep) for a one-character separator: splits at every
occurrence, keeping empty pieces. -/
def splitChar (sep : Char) : Str → List Str
  | [] => [[]]
  | c :: rest =>
    if c = sep then [] :: splitChar sep rest
    else
      match splitChar sep rest with
      | [] => [[c]]
      | p :: ps => (c :: p) :: ps

/-- Whitespace as Python str.strip removes it, restricted to the characters
the ServerQuery protocol can carry (ASCII whitespace, the C1 separators and
NEL); the rarer Unicode space characters are not modelled. -/
def pyIsSpace (c : Char) : Bool :=
  c = ' ' || c = '\t' || c = '\n' || c = '\r' || c = '\x0b' || c = '\x0c' ||
  c = '\x1c' || c = '\x1d' || c = '\x1e' || c = '\x1f' || c = '\x85'

/-- Python str.strip(): drop leading and trailing whitespace. -/
def pyStrip (l : Str) : Str :=
  ((l.dropWhile pyIsSpace).reverse.dropWhile pyIsSpace).reverse

/-- Line-break characters recognised by Python str.splitlines (the CR LF
pair is handled separately in pySplitlines). -/
def isLineBreak (c : Char) : Bool :=
  c = '\n' || c = '\r' || c = '\x0b' || c = '\x0c' || c = '\x1c' ||
  c = '\x1d' || c = '\x1e' || c = '\x85' || c = '\u2028' || c = '\u2029'

/-- Python str.splitlines(): split at line breaks, treating CR LF as one
break, with no trailing empty line. -/
def pySplitlines : Str → List Str
  | [] => []
  | '\r' :: '\n' :: rest => [] :: pySplitlines rest
  | c :: rest =>
    if isLineBreak c then [] :: pySplitlines rest
    else
      match pySplitlines rest with
      | [] => [[c]]
      | p :: ps => (c :: p) :: ps

/-- Python str.replace, left to right and non-overlapping, written with a
fuel argument so that the kernel can evaluate it; one character is consumed
per step, so fuel = length of the subject suffices.  (Python treats an empty
pattern specially; the patterns used here are never empty.) -/
def replaceFuel (rep pat : Str) : Nat → Str → Str
  | 0, l => l
  | _, [] => []
  | fuel + 1, c :: rest =>
    if !pat.isEmpty && startsWith pat (c :: rest) then
      rep ++ replaceFuel rep pat fuel ((c :: rest).drop pat.length)
    else
      c :: replaceFuel rep pat fuel rest

/-- Python str.replace(pat, rep). -/
def pyReplace (l pat rep : Str) : Str := replaceFuel rep pat l.length l

/-- Lines 125-126 of src/plugin.py: _unescape applies the four ServerQuery
substitutions left to right, the backslash one last. -/
def _unescape (val : Str) : Str :=
  pyReplace (pyReplace (pyReplace (pyReplace val
    (str "\\s") (str " "))
    (str "\\/") (str "/"))
    (str "\\p") (str "|"))
    (str "\\\\") (str "\\")

/-- Python exceptions that the modelled code can raise. -/
inductive PyErr where
  | valueError (lit : Str)
  | connectError
  | tsError
deriving DecidableEq

/-- Python int(s) on a decimal string: strip whitespace, optional sign,
digits; anything else raises ValueError.  (Underscores between digits and
non-ASCII digits are not modelled.) -/
def digitsToInt (ds : Str) (orig : Str) : Except PyErr Int :=
  if !ds.isEmpty && ds.all Char.isDigit then
    Except.ok (Int.ofNat (ds.foldl (fun n c => n * 10 + (c.toNat - '0'.toNat)) 0))
  else
    Except.error (PyErr.valueError orig)

/-- Python int(s) for a str argument. -/
def pyInt (s : Str) : Except PyErr Int :=
  match pyStrip s with
  | '+' :: ds => digitsToInt ds s
  | '-' :: ds => (digitsToInt ds s).map Int.neg
  | ds => digitsToInt ds s

/-- Python str(x) for an Optional string: str of None is the text None. -/
def strOfPy : Option Str → Str
  | some s => s
  | none => str "None"

/-- A UTF-8 continuation byte. -/
def isCont (b : Nat) : Bool := 0x80 ≤ b && b ≤ 0xBF

/-- The scalar value of a two-byte sequence. -/
def scalar2 (b1 b2 : Nat) : Nat := (b1 - 0xC0) * 0x40 + (b2 - 0x80)

/-- The scalar value of a three-byte sequence. -/
def scalar3 (b1 b2 b3 : Nat) : Nat :=
  (b1 - 0xE0) * 0x1000 + (b2 - 0x80) * 0x40 + (b3 - 0x80)

/-- The scalar value of a four-byte sequence. -/
def scalar4 (b1 b2 b3 b4 : Nat) : Nat :=
  (b1 - 0xF0) * 0x40000 + (b2 - 0x80) * 0x1000 + (b3 - 0x80) * 0x40 + (b4 - 0x80)

/-- The permitted range of the first continuation byte of a three-byte
sequence (excludes overlong forms and surrogates, as Python does). -/
def cont3Ok (b1 b2 : Nat) : Bool :=
  if b1 = 0xE0 then 0xA0 ≤ b2 && b2 ≤ 0xBF
  else if b1 = 0xED then 0x80 ≤ b2 && b2 ≤ 0x9F
  else isCont b2

/-- The permitted range of the first continuation byte of a four-byte
sequence (excludes overlong forms and values above U+10FFFF). -/
def cont4Ok (b1 b2 : Nat) : Bool :=
  if b1 = 0xF0 then 0x90 ≤ b2 && b2 ≤ 0xBF
  else if b1 = 0xF4 then 0x80 ≤ b2 && b2 ≤ 0x8F
  else isCont b2

/-- The recursion of pyDecodeIgnore, written with a fuel argument so that
the kernel can evaluate it; every step consumes at least one byte, so fuel
equal to the byte count suffices. -/
def decodeFuel : Nat → List Nat → Str
  | 0, _ => []
  | _, [] => []
  | fuel + 1, b :: rest =>
    if b < 0x80 then Char.ofNat b :: decodeFuel fuel rest
    else if 0xC2 ≤ b && b ≤ 0xDF then
      match rest with
      | [] => []
      | b2 :: rest2 =>
        if isCont b2 then Char.ofNat (scalar2 b b2) :: decodeFuel fuel rest2
        else decodeFuel fuel rest
    else if 0xE0 ≤ b && b ≤ 0xEF then
      match rest with
      | [] => []
      | [b2] => if cont3Ok b b2 then [] else decodeFuel fuel [b2]
      | b2 :: b3 :: rest3 =>
        if cont3Ok b b2 then
          if isCont b3 then Char.ofNat (scalar3 b b2 b3) :: decodeFuel fuel rest3
          else decodeFuel fuel (b3 :: rest3)
        else decodeFuel fuel (b2 :: b3 :: rest3)
    else if 0xF0 ≤ b && b ≤ 0xF4 then
      match rest with
      | [] => []
      | [b2] => if cont4Ok b b2 then [] else decodeFuel fuel [b2]
      | [b2, b3] =>
        if cont4Ok b b2 then
          if isCont b3 then [] else decodeFuel fuel [b3]
        else decodeFuel fuel [b2, b3]
      | b2 :: b3 :: b4 :: rest4 =>
        if cont4Ok b b2 then
          if isCont b3 then
            if isCont b4 then Char.ofNat (scalar4 b b2 b3 b4) :: decodeFuel fuel rest4
            else decodeFuel fuel (b4 :: rest4)
          else decodeFuel fuel (b3 :: b4 :: rest4)
        else decodeFuel fuel (b2 :: b3 :: b4 :: rest4)
    else decodeFuel fuel rest

/-- Line 151 of src/plugin.py: bytes.decode with errors equal to ignore,
modelled as a UTF-8 decoder that drops each maximal ill-formed byte
sequence and never fails. -/
def pyDecodeIgnore (bs : List Nat) : Str := decodeFuel bs.length bs

/-- Equality of Except values is decidable when it is for both sides. -/
instance {ε α : Type} [DecidableEq ε] [DecidableEq α] : DecidableEq (Except ε α) := fun x y =>
  match x, y with
  | .ok a, .ok b =>
    if h : a = b then isTrue (by rw [h]) else isFalse (fun he => h (Except.ok.inj he))
  | .error a, .error b =>
    if h : a = b then isTrue (by rw [h]) else isFalse (fun he => h (Except.error.inj he))
  | .ok _, .error _ => isFalse (fun he => Except.noConfusion he)
  | .error _, .ok _ => isFalse (fun he => Except.noConfusion he)

/-- A Python dict, modelled as an association list in insertion order.
Assignment d[k] = v replaces the value of an existing key in place and
appends a new key at the end, as CPython dicts do. -/
def dictSet {κ α : Type} [DecidableEq κ] : List (κ × α) → κ → α → List (κ × α)
  | [], k, v => [(k, v)]
  | (k', v') :: rest, k, v =>
    if k' = k then (k, v) :: rest else (k', v') :: dictSet rest k v

/-- Python dict.get(k): the value of the first (hence, keys being unique,
the only) binding of k, if any. -/
def dictGet? {κ α : Type} [DecidableEq κ] : List (κ × α) → κ → Option α
  | [], _ => none
  | kv :: rest, k => if kv.1 = k then some kv.2 else dictGet? rest k

/-- Python dict.get(k, default). -/
def dictGetD {κ α : Type} [DecidableEq κ] (d : List (κ × α)) (k : κ) (dflt : α) : α :=
  (dictGet? d k).getD dflt

/-- A record parsed from one ServerQuery response entry: a dict from key
strings to unescaped value strings. -/
abbrev Record := List (Str × Str)

/-- The space-separated tokens of a line as lines 130-131 of src/plugin.py
produce them: line.strip().split(" ") if line else []. -/
def partsOf (line : Str) : List Str :=
  if line.isEmpty then [] else splitChar ' ' (pyStrip line)

/-- The key-value contribution of one token, lines 132-134 of
src/plugin.py: tokens without an equals sign contribute nothing; the rest
split at their first equals sign and the value is unescaped. -/
def kvOf (p : Str) : Option (Str × Str) :=
  if '=' ∈ p then
    some (p.takeWhile (fun c => c ≠ '='),
          _unescape (p.drop ((p.takeWhile (fun c => c ≠ '=')).length + 1)))
  else none

/-- The body of the loop at lines 131-134 of src/plugin.py: one token
updates the dict when it carries an equals sign. -/
def kvStep (d : Record) (p : Str) : Record :=
  match kvOf p with
  | some (k, v) => dictSet d k v
  | none => d

/-- Lines 128-135 of src/plugin.py: _parse_entry builds a dict from the
tokens of a line, later occurrences of a key overwriting earlier ones. -/
def _parse_entry (line : Str) : Record :=
  (partsOf line).foldl kvStep []

/-- Lines 162-165 of src/plugin.py: one data line may hold several records
separated by pipes; blank parts are skipped, the rest are parsed. -/
def lineRecords (e : Str) : List Record :=
  (((splitChar '|' e).filter (fun p => !(pyStrip p).isEmpty)).map _parse_entry)

/-- The records of a list of data lines, in order. -/
def entriesOf (ls : List Str) : List Record :=
  (ls.map lineRecords).flatten

/-- Line 152 of src/plugin.py: the non-blank lines of the accumulated
response text. -/
def nonblankLines (text : Str) : List Str :=
  (pySplitlines text).filter (fun l => !(pyStrip l).isEmpty)

/-- The marker that opens a ServerQuery status line. -/
def errMark : Str := str "error id="

/-- Lines 151-166 of src/plugin.py: parse the accumulated response text
into (records, status dict).  The last non-blank line is the status line
when it opens with the error marker; otherwise a sentinel status with id
-1 is synthesized. -/
def recvParse (text : Str) : List Record × Record :=
  let lines := nonblankLines text
  match lines.getLast? with
  | none => ([], [(str "id", str "-1"), (str "msg", str "no response")])
  | some last =>
    if startsWith errMark last then
      (entriesOf lines.dropLast, _parse_entry last)
    else
      (entriesOf lines, [(str "id", str "-1"), (str "msg", str "no error line")])

/-- The success test applied to a status dict at every checked call site
(lines 178, 183, 188 of src/plugin.py): err.get("id") equal to the
string 0. -/
def errOk (err : Record) : Bool :=
  decide (dictGet? err (str "id") = some (str "0"))

/-- A value stored in the result dict: string, integer, count or list of
names. -/
inductive Val where
  | s (v : Str)
  | i (v : Int)
  | n (v : Nat)
  | ls (v : List Str)
deriving DecidableEq

/-- The result dict crossing back to the caller. -/
abbrev ResultDict := List (Str × Val)

/-- The configuration values read at lines 41-52 of src/plugin.py, as the
query logic consumes them: host and port only select the peer and are
represented by the transcript; exclude_channels is already normalized to a
list of strings (lines 49-52); query_type and show_user_list are the
function arguments. -/
structure Config where
  username : Str
  password : Str
  api_key : Str
  server_id : Str
  exclude_channels : List Str
  show_details : Bool
  query_type : Str
  show_user_list : Bool
deriving DecidableEq

/-- Lines 76 and 198 of src/plugin.py: the name recorded for a channel,
channel_name falling back to name falling back to the empty string, empty
strings being falsy. -/
def chanName (ch : Record) : Str :=
  match dictGet? ch (str "channel_name") with
  | some v => if v.isEmpty then
      (match dictGet? ch (str "name") with
       | some w => w
       | none => [])
    else v
  | none =>
    match dictGet? ch (str "name") with
    | some w => w
    | none => []

/-- Lines 76 and 198 of src/plugin.py: the cid to name dict built from the
channel list (a later channel with the same cid overwrites an earlier
one). -/
def cid_to_name (channels : List Record) : List (Option Str × Str) :=
  channels.foldl (fun d ch => dictSet d (dictGet? ch (str "cid")) (chanName ch)) []

/-- Python set.add on a set modelled as a duplicate-free list. -/
def setAdd (s : List Str) (x : Str) : List Str :=
  if x ∈ s then s else s ++ [x]

/-- Lines 79-87 and 199-206 of src/plugin.py: the excluded channel ids.
For each configured token: when the token occurs among the mapped channel
names, add the string form of every cid mapped to it, else add the token
itself (already a string after normalization, so str of it is itself). -/
def excluded_cids (tokens : List Str) (channels : List Record) : List Str :=
  let ctn := cid_to_name channels
  tokens.foldl
    (fun acc ex =>
      if ex ∈ ctn.map (fun kv => kv.2) then
        ctn.foldl (fun acc2 kv => if kv.2 = ex then setAdd acc2 (strOfPy kv.1) else acc2) acc
      else setAdd acc ex) []

/-- Lines 89 and 208 of src/plugin.py: the clients kept as online users:
client_type equal to the string 0 and str of cid not excluded. -/
def online_users_of (clients : List Record) (excluded : List Str) : List Record :=
  clients.filter
    (fun c => decide (dictGet? c (str "client_type") = some (str "0"))
           && !decide (strOfPy (dictGet? c (str "cid")) ∈ excluded))

/-- Lines 90 and 209 of src/plugin.py: online_count is the length of the
filtered list. -/
def online_count (clients : List Record) (excluded : List Str) : Nat :=
  (online_users_of clients excluded).length

/-- Lines 97 and 217 of src/plugin.py: the channel count excluding the
excluded cids. -/
def channelCountOf (channels : List Record) (excluded : List Str) : Nat :=
  (channels.filter (fun ch => !decide (strOfPy (dictGet? ch (str "cid")) ∈ excluded))).length

/-- Lines 107 and 227 of src/plugin.py: the displayed nickname of a
client. -/
def nickOf (u : Record) : Str := dictGetD u (str "client_nickname") (str "未知")

/-- Lines 106-110 and 226-230 of src/plugin.py: when the flag (the
show_user_list argument or the show_details configuration) is set, record
the first ten nicknames under online_users and, past ten, the overflow
count under more_users. -/
def addUserList (flag : Bool) (online : List Record) (result : ResultDict) : ResultDict :=
  if flag then
    let user_names := (online.take 10).map nickOf
    let r := dictSet result (str "online_users") (Val.ls user_names)
    if online.length > 10 then
      dictSet r (str "more_users") (Val.n (online.length - 10))
    else r
  else result

/-- Lines 92 and 211 of src/plugin.py: the base result dict. -/
def baseResult (server_name : Str) (onlineCount : Nat) (max_clients : Int) : ResultDict :=
  [(str "server_name", Val.s server_name),
   (str "online_count", Val.n onlineCount),
   (str "max_clients", Val.i max_clients)]

/-- A failure result dict, {"error": msg}. -/
def errResult (msg : Str) : ResultDict := [(str "error", Val.s msg)]

/-- Lines 98-104 and 218-224 of src/plugin.py: result.update with the
status fields.  Python floor division and modulus on ints are Int.ediv
and Int.emod. -/
def statusUpdate (result : ResultDict) (uptime : Int) (server_info : Record)
    (channel_count : Nat) : ResultDict :=
  dictSet (dictSet (dictSet (dictSet (dictSet result
    (str "uptime_days") (Val.i (Int.ediv uptime 86400)))
    (str "uptime_hours") (Val.i (Int.ediv (Int.emod uptime 86400) 3600)))
    (str "version") (Val.s (dictGetD server_info (str "virtualserver_version") (str "未知"))))
    (str "platform") (Val.s (dictGetD server_info (str "virtualserver_platform") (str "未知"))))
    (str "channel_count") (Val.n channel_count)

/-- Lines 71 and 193 of src/plugin.py: int of
server_info.get("virtualserver_maxclients", "0"). -/
def computeMaxClients (server_info : Record) : Except PyErr Int :=
  pyInt (dictGetD server_info (str "virtualserver_maxclients") (str "0"))

/-- Line 214 of src/plugin.py: uptime on the raw path is 0 when the field
is absent or falsy, else int of it (which may raise). -/
def rawUptime (server_info : Record) : Except PyErr Int :=
  match dictGet? server_info (str "virtualserver_uptime") with
  | none => Except.ok 0
  | some v => if v.isEmpty then Except.ok 0 else pyInt v

/-- Line 95 of src/plugin.py: uptime on the library path, int of the field
with int default 0 when absent. -/
def libUptime (server_info : Record) : Except PyErr Int :=
  match dictGet? server_info (str "virtualserver_uptime") with
  | none => Except.ok 0
  | some v => pyInt v

/-- The observable state of the raw-socket session: connection attempts
made, whether a socket was opened, whether sock.close() has run, the
commands sent in order, and the scripted response bytes still pending.
The transcript models a responsive server: each command is answered with
the next scripted byte string (an exhausted script answers with no bytes,
which parses to the synthesized status id -1). -/
structure RawSt where
  connections : Nat := 0
  opened : Bool := false
  closed : Bool := false
  sent : List Str := []
  pending : List (List Nat) := []
deriving DecidableEq

/-- The initial raw-path state holding the scripted responses. -/
def initRaw (responses : List (List Nat)) : RawSt := { pending := responses }

/-- Lines 137-166 of src/plugin.py: _send_and_recv sends one command line
and parses the accumulated response; modelled by consuming the next
scripted byte string. -/
def sendRecv (st : RawSt) (cmd : Str) : RawSt × (List Record × Record) :=
  ({ st with sent := st.sent ++ [cmd], pending := st.pending.tail },
   recvParse (pyDecodeIgnore (st.pending.headD [])))

/-- Lines 65 and 176 of src/plugin.py: the api key is preferred over the
password when non-empty. -/
def loginPassword (cfg : Config) : Str :=
  if !cfg.api_key.isEmpty then cfg.api_key else cfg.password

/-- Line 177 of src/plugin.py: the login command line. -/
def loginCmd (cfg : Config) : Str :=
  str "login " ++ cfg.username ++ str " " ++ loginPassword cfg

/-- Line 182 of src/plugin.py: the use command line. -/
def useCmd (cfg : Config) : Str := str "use sid=" ++ cfg.server_id

/-- Lines 232-238 of src/plugin.py: best-effort quit, then close the
socket, then return success with the result. -/
def finishRaw (cfg : Config) (st : RawSt) (online : List Record) (result : ResultDict) :
    RawSt × Except PyErr (Bool × ResultDict) :=
  let result := addUserList (cfg.show_user_list || cfg.show_details) online result
  let s1 := sendRecv st (str "quit")
  ({ s1.1 with closed := true }, Except.ok (true, result))

/-- Lines 169-238 of src/plugin.py: the body of the raw-socket try block,
from a successful create_connection to the final return.  Except.error
models a Python exception escaping the block (here: int failing on a
malformed numeric field); note that those exits do not close the
socket. -/
def rawTry (cfg : Config) (st0 : RawSt) : RawSt × Except PyErr (Bool × ResultDict) :=
  let st := { st0 with connections := st0.connections + 1, opened := true }
  let s1 := sendRecv st (loginCmd cfg)
  if !errOk s1.2.2 then
    ({ s1.1 with closed := true },
     Except.ok (false, errResult (str "ServerQuery 登录失败: " ++ dictGetD s1.2.2 (str "msg") [])))
  else
  let s2 := sendRecv s1.1 (useCmd cfg)
  if !errOk s2.2.2 then
    ({ s2.1 with closed := true },
     Except.ok (false, errResult (str "use sid 失败: " ++ dictGetD s2.2.2 (str "msg") [])))
  else
  let s3 := sendRecv s2.1 (str "serverinfo")
  if !errOk s3.2.2 then
    ({ s3.1 with closed := true },
     Except.ok (false, errResult (str "serverinfo 失败: " ++ dictGetD s3.2.2 (str "msg") [])))
  else
  let server_info := s3.2.1.headD []
  let server_name := dictGetD server_info (str "virtualserver_name") (str "未知服务器")
  match computeMaxClients server_info with
  | Except.error e => (s3.1, Except.error e)
  | Except.ok max_clients =>
  let s4 := sendRecv s3.1 (str "clientlist")
  let parsed_clients := s4.2.1
  let s5 := sendRecv s4.1 (str "channellist")
  let parsed_channels := s5.2.1
  let excluded := excluded_cids cfg.exclude_channels parsed_channels
  let online := online_users_of parsed_clients excluded
  let result := baseResult server_name online.length max_clients
  if cfg.query_type = str "server_status" then
    match rawUptime server_info with
    | Except.error e => (s5.1, Except.error e)
    | Except.ok uptime =>
      let s6 := sendRecv s5.1 (str "channellist")
      let result := statusUpdate result uptime server_info (channelCountOf s6.2.1 excluded)
      finishRaw cfg s6.1 online result
  else
    finishRaw cfg s5.1 online result

/-- The message text of a Python exception, as str(e) renders it. -/
def pyErrMsg : PyErr → Str
  | PyErr.valueError lit => str "invalid literal for int() with base 10: '" ++ lit ++ str "'"
  | PyErr.connectError => str "connection failed"
  | PyErr.tsError => str "ts3 error"

/-- Lines 168-240 of src/plugin.py: the raw TCP fallback with its outer
try/except.  A failed create_connection raises inside the try; any escaped
exception is caught at line 239 and turned into a failure result, with no
further cleanup. -/
def rawPath (cfg : Config) (connectOk : Bool) (responses : List (List Nat)) :
    RawSt × (Bool × ResultDict) :=
  if connectOk then
    match rawTry cfg (initRaw responses) with
    | (st, Except.ok r) => (st, r)
    | (st, Except.error e) =>
      (st, (false, errResult (str "TCP 回退查询失败: " ++ pyErrMsg e)))
  else
    ({ initRaw responses with connections := 1 },
     (false, errResult (str "TCP 回退查询失败: " ++ pyErrMsg PyErr.connectError)))

/-- A scripted run of the external ts3 library: whether the import, the
connection and each query step succeed, and what records they return.
Library calls that fail raise, modelled as Except.error. -/
structure LibScript where
  importOk : Bool
  connectOk : Bool
  loginOk : Bool
  useOk : Bool
  serverinfoRes : Except Unit Record
  clientsRes : Except Unit (List Record)
  channelsRes : Except Unit (List Record)
deriving DecidableEq

/-- The observable state of the library session. -/
structure LibSt where
  connections : Nat := 0
  opened : Bool := false
  closed : Bool := false
deriving DecidableEq

/-- Lines 65-114 of src/plugin.py: the body of the inner try on the
library path (the connection already constructed). -/
def libBody (cfg : Config) (L : LibScript) : Except PyErr (Bool × ResultDict) :=
  if !L.loginOk then Except.error PyErr.tsError
  else if !L.useOk then Except.error PyErr.tsError
  else
  match L.serverinfoRes with
  | Except.error _ => Except.error PyErr.tsError
  | Except.ok server_info =>
  let server_name := dictGetD server_info (str "virtualserver_name") (str "未知服务器")
  match computeMaxClients server_info with
  | Except.error e => Except.error e
  | Except.ok max_clients =>
  match L.clientsRes, L.channelsRes with
  | Except.ok clients, Except.ok channels =>
    let excluded := excluded_cids cfg.exclude_channels channels
    let online := online_users_of clients excluded
    let result := baseResult server_name online.length max_clients
    if cfg.query_type = str "server_status" then
      match libUptime server_info with
      | Except.error e => Except.error e
      | Except.ok uptime =>
        let result := statusUpdate result uptime server_info (channelCountOf channels excluded)
        Except.ok (true, addUserList (cfg.show_user_list || cfg.show_details) online result)
    else
      Except.ok (true, addUserList (cfg.show_user_list || cfg.show_details) online result)
  | _, _ => Except.error PyErr.tsError

/-- Lines 57-121 of src/plugin.py: the library path.  The finally clause
at lines 115-119 closes the connection on every exit once it was
constructed; an exception then propagates to the except at line 121 (and
the caller falls back to the raw path). -/
def libPath (cfg : Config) (L : LibScript) : LibSt × Except PyErr (Bool × ResultDict) :=
  if !L.importOk then ({}, Except.error PyErr.tsError)
  else if !L.connectOk then ({ connections := 1 }, Except.error PyErr.tsError)
  else
    let st : LibSt := { connections := 1, opened := true }
    match libBody cfg L with
    | Except.ok r => ({ st with closed := true }, Except.ok r)
    | Except.error e => ({ st with closed := true }, Except.error e)

/-- Line 55 of src/plugin.py: the configuration failure result. -/
def configErrResult : ResultDict :=
  errResult (str "TeamSpeak 凭证未配置（请在插件配置中设置 password 或 api_key）")

/-- Lines 35-240 of src/plugin.py: _perform_teamspeak_query.  Credentials
are checked first; then the library path is tried, and any exception in
it (import, connect or query) falls back to the raw TCP path.  Returns
the library session state, the raw session state when that path ran, and
the (success, result dict) pair. -/
def performQuery (cfg : Config) (L : LibScript) (connectOk : Bool)
    (responses : List (List Nat)) : LibSt × Option RawSt × (Bool × ResultDict) :=
  if cfg.api_key.isEmpty && cfg.password.isEmpty then
    ({}, none, (false, configErrResult))
  else
    match libPath cfg L with
    | (ls, Except.ok r) => (ls, none, r)
    | (ls, Except.error _) =>
      let pr := rawPath cfg connectOk responses
      (ls, some pr.1, pr.2)

/-- The bytes of an ASCII protocol line (UTF-8 of ASCII text is the text
itself). -/
def asciiBytes (s : String) : List Nat := (str s).map Char.toNat

/-- A concrete configuration used by the concrete-input theorems below. -/
def cfgO : Config :=
  { username := str "serveradmin", password := str "pw", api_key := [],
    server_id := str "1", exclude_channels := [], show_details := false,
    query_type := str "online_count", show_user_list := false }

/-- A transcript whose serverinfo response carries a malformed
virtualserver_maxclients value. -/
def respAbc : List (List Nat) :=
  [asciiBytes "error id=0 msg=ok\n",
   asciiBytes "error id=0 msg=ok\n",
   asciiBytes "virtualserver_name=Test virtualserver_maxclients=abc\nerror id=0 msg=ok\n"]

/-- A transcript whose clientlist response reports a protocol failure. -/
def respClientFail : List (List Nat) :=
  [asciiBytes "error id=0 msg=ok\n",
   asciiBytes "error id=0 msg=ok\n",
   asciiBytes "virtualserver_name=Test virtualserver_maxclients=32\nerror id=0 msg=ok\n",
   asciiBytes "error id=1 msg=denied\n",
   asciiBytes "cid=1 channel_name=Lobby\nerror id=0 msg=ok\n",
   asciiBytes "error id=0 msg=ok\n"]

/-- Reading a key just written returns the new value; other keys are
untouched. -/
theorem dictGet?_dictSet {κ α : Type} [DecidableEq κ] (d : List (κ × α)) (k k' : κ) (v : α) :
    dictGet? (dictSet d k v) k' = if k' = k then some v else dictGet? d k' := by
  induction d with
  | nil =>
    by_cases h : k' = k
    · subst h; simp [dictSet, dictGet?]
    · have h2 : ¬ k = k' := fun hh => h hh.symm
      simp [dictSet, dictGet?, h, h2]
  | cons kv rest ih =>
    obtain ⟨k₀, v₀⟩ := kv
    by_cases h0 : k₀ = k
    · subst h0
      by_cases h : k' = k₀
      · subst h; simp [dictSet, dictGet?]
      · have h2 : ¬ k₀ = k' := fun hh => h hh.symm
        simp [dictSet, dictGet?, h, h2]
    · by_cases h : k' = k
      · subst h
        simp [dictSet, dictGet?, h0, ih]
      · by_cases h1 : k₀ = k'
        · subst h1
          simp [dictSet, dictGet?, h0, ih, h]
        · simp [dictSet, dictGet?, h0, h1, ih, h]

/-- Membership in a set after set.add. -/
theorem mem_setAdd (s : List Str) (x y : Str) : x ∈ setAdd s y ↔ x ∈ s ∨ x = y := by
  unfold setAdd
  by_cases h : y ∈ s
  · simp only [if_pos h]
    constructor
    · exact fun hx => Or.inl hx
    · rintro (hx | rfl)
      · exact hx
      · exact h
  · simp [if_neg h]

/-- The head of a filtered list is the first element satisfying the
predicate. -/
theorem head?_filter {α : Type} (q : α → Bool) (l : List α) :
    (l.filter q).head? = l.find? q := by
  induction l with
  | nil => rfl
  | cons a rest ih =>
    by_cases h : q a
    · simp [List.filter_cons, h, List.find?_cons_of_pos]
    · simp [List.filter_cons, h, List.find?_cons_of_neg, ih]

/-- The last element of a filtered list is the first element of the
reversed list satisfying the predicate. -/
theorem getLast?_filter {α : Type} (q : α → Bool) (l : List α) :
    (l.filter q).getLast? = l.reverse.find? q := by
  rw [← List.head?_reverse, ← List.filter_reverse, head?_filter]

/-- splitChar never returns an empty list of pieces. -/
theorem splitChar_ne_nil (sep : Char) (l : Str) : splitChar sep l ≠ [] := by
  induction l with
  | nil => simp [splitChar]
  | cons c rest ih =>
    by_cases h : c = sep
    · simp [splitChar, h]
    · simp only [splitChar, if_neg h]
      cases hs : splitChar sep rest with
      | nil => simp
      | cons p ps => simp

/-- Splitting at an explicit separator occurrence splits the two sides
independently. -/
theorem splitChar_append (sep : Char) (xs ys : Str) :
    splitChar sep (xs ++ sep :: ys) = splitChar sep xs ++ splitChar sep ys := by
  induction xs with
  | nil => simp [splitChar]
  | cons c rest ih =>
    by_cases h : c = sep
    · simp [splitChar, h, ih]
    · simp only [List.cons_append, splitChar, if_neg h, List.append_eq]
      rw [ih]
      cases hs : splitChar sep rest with
      | nil => exact absurd hs (splitChar_ne_nil sep rest)
      | cons p ps => simp

/-- A list without the separator is a single piece. -/
theorem splitChar_of_not_mem (sep : Char) (l : Str) (h : sep ∉ l) : splitChar sep l = [l] := by
  induction l with
  | nil => rfl
  | cons c rest ih =>
    rw [List.mem_cons, not_or] at h
    obtain ⟨h1, h2⟩ := h
    have hc : ¬ c = sep := fun hh => h1 hh.symm
    simp [splitChar, hc, ih h2]

/-- A string strips to nothing exactly when all its characters are
whitespace. -/
theorem pyStrip_eq_nil_iff (l : Str) : pyStrip l = [] ↔ ∀ c ∈ l, pyIsSpace c := by
  unfold pyStrip
  rw [List.reverse_eq_nil_iff, List.dropWhile_eq_nil_iff]
  constructor
  · intro h c hc
    have hsplit := List.takeWhile_append_dropWhile (p := pyIsSpace) (l := l)
    rw [← hsplit] at hc
    rcases List.mem_append.mp hc with hc | hc
    · exact List.mem_takeWhile_imp hc
    · exact h c (List.mem_reverse.mpr hc)
  · intro h c hc
    exact h c ((List.dropWhile_sublist pyIsSpace).mem (List.mem_reverse.mp hc))

/-- The head of dropWhile fails the predicate. -/
theorem dropWhile_cons_false {α : Type} (q : α → Bool) (l : List α) (c : α) (w : List α)
    (h : l.dropWhile q = c :: w) : q c = false := by
  induction l with
  | nil => simp [List.dropWhile] at h
  | cons a rest ih =>
    by_cases ha : q a
    · rw [List.dropWhile_cons_of_pos ha] at h
      exact ih h
    · rw [List.dropWhile_cons_of_neg ha] at h
      cases h
      exact Bool.not_eq_true _ ▸ (by simpa using ha)

/-- Dropping the length of takeWhile is dropWhile. -/
theorem drop_length_takeWhile {α : Type} (q : α → Bool) (l : List α) :
    l.drop (l.takeWhile q).length = l.dropWhile q := by
  induction l with
  | nil => rfl
  | cons a rest ih =>
    by_cases ha : q a
    · rw [List.takeWhile_cons_of_pos ha, List.dropWhile_cons_of_pos ha]
      simpa using ih
    · rw [List.takeWhile_cons_of_neg ha, List.dropWhile_cons_of_neg ha]
      rfl

/-- Looking a key up in the dict built by the _parse_entry fold finds the
value of the last token that bound the key (keys bound later overwrite
earlier ones), starting from any dict. -/
theorem dictGet?_foldl_kv (parts : List Str) (d : Record) (k : Str) :
    dictGet? (parts.foldl kvStep d) k =
    match (parts.filterMap kvOf).reverse.find? (fun kv => decide (kv.1 = k)) with
    | some kv => some kv.2
    | none => dictGet? d k := by
  induction parts generalizing d with
  | nil => rfl
  | cons p rest ih =>
    simp only [List.foldl_cons, List.filterMap_cons]
    cases hp : kvOf p with
    | none => simp [kvStep, hp, ih]
    | some kv0 =>
      obtain ⟨k0, v0⟩ := kv0
      simp only [kvStep, hp, List.reverse_cons, List.find?_append, ih, dictGet?_dictSet]
      cases hf : (rest.filterMap kvOf).reverse.find? (fun kv => decide (kv.1 = k)) with
      | some kv => simp
      | none =>
        by_cases hk : k = k0
        · subst hk
          simp [List.find?]
        · have hk2 : ¬ k0 = k := fun hh => hk hh.symm
          simp [List.find?, hk, hk2]

/-- _parse_entry as a last-binding lookup: the value recorded for a key is
the value of the last equals-bearing token of the line that has that key,
unescaped. -/
theorem dictGet?_parse_entry (line : Str) (k : Str) :
    dictGet? (_parse_entry line) k =
    match (((partsOf line).filterMap kvOf).reverse.find? (fun kv => decide (kv.1 = k))) with
    | some kv => some kv.2
    | none => none := by
  have h := dictGet?_foldl_kv (partsOf line) [] k
  unfold _parse_entry
  rw [h]
  cases (List.filterMap kvOf (partsOf line)).reverse.find? (fun kv => decide (kv.1 = k)) <;> rfl

/-- A token that kvOf accepts splits at its first equals sign: the key has
no equals sign, and everything after the first one, later equals signs
included, is the unescaped value. -/
theorem kvOf_eq_some (p : Str) (k v : Str) (h : kvOf p = some (k, v)) :
    '=' ∉ k ∧ ∃ w, p = k ++ '=' :: w ∧ v = _unescape w := by
  unfold kvOf at h
  by_cases hm : '=' ∈ p
  · simp only [if_pos hm, Option.some.injEq, Prod.mk.injEq] at h
    obtain ⟨hk, hv⟩ := h
    subst hk
    constructor
    · intro hmem
      have := List.mem_takeWhile_imp hmem
      simp at this
    · cases hd : p.dropWhile (fun c => decide (c ≠ '=')) with
      | nil =>
        exfalso
        rw [List.dropWhile_eq_nil_iff] at hd
        have := hd '=' hm
        simp at this
      | cons c w =>
        have hc : c = '=' := by
          have := dropWhile_cons_false (fun c => decide (c ≠ '=')) p c w hd
          simpa using this
        subst hc
        refine ⟨w, ?_, ?_⟩
        · conv_lhs => rw [← List.takeWhile_append_dropWhile
            (p := fun c => decide (c ≠ '=')) (l := p)]
          rw [hd]
        · subst hv
          congr 1
          have hdrop : p.drop (p.takeWhile (fun c => decide (c ≠ '='))).length =
              '=' :: w := by
            rw [drop_length_takeWhile, hd]
          have h2 := List.drop_drop 1 (p.takeWhile (fun c => decide (c ≠ '='))).length p
          rw [hdrop] at h2
          simpa using h2.symm
  · simp [if_neg hm] at h

/-- A token without an equals sign contributes nothing. -/
theorem kvOf_eq_none (p : Str) (h : '=' ∉ p) : kvOf p = none := by
  simp [kvOf, h]

/-- Decoding pure ASCII bytes yields exactly those characters. -/
theorem decodeFuel_ascii (fuel : Nat) (bs : List Nat) (hf : bs.length ≤ fuel)
    (h : ∀ b ∈ bs, b < 0x80) : decodeFuel fuel bs = bs.map Char.ofNat := by
  induction fuel generalizing bs with
  | zero =>
    cases bs with
    | nil => rfl
    | cons b rest => simp at hf
  | succ n ih =>
    cases bs with
    | nil => rfl
    | cons b rest =>
      have hb : b < 0x80 := h b (List.mem_cons_self b rest)
      have hrest : rest.length ≤ n := by simpa using hf
      simp [decodeFuel, hb, ih rest hrest (fun x hx => h x (List.mem_cons_of_mem b hx))]

/-- Membership in the inner loop of the exclusion builder (lines 83-85 and
202-204 of src/plugin.py): the ids of all mapping entries whose name
equals the token are added. -/
theorem mem_inner_fold (ctn : List (Option Str × Str)) (ex x : Str) (acc : List Str) :
    (x ∈ ctn.foldl
        (fun acc2 kv => if kv.2 = ex then setAdd acc2 (strOfPy kv.1) else acc2) acc) ↔
      (x ∈ acc ∨ ∃ kv, kv ∈ ctn ∧ kv.2 = ex ∧ x = strOfPy kv.1) := by
  induction ctn generalizing acc with
  | nil => simp
  | cons kv rest ih =>
    simp only [List.foldl_cons]
    by_cases h : kv.2 = ex
    · rw [if_pos h, ih]
      simp only [mem_setAdd, List.mem_cons]
      constructor
      · rintro ((hx | hx) | ⟨kv2, h2, h3, h4⟩)
        · exact Or.inl hx
        · exact Or.inr ⟨kv, Or.inl rfl, h, hx⟩
        · exact Or.inr ⟨kv2, Or.inr h2, h3, h4⟩
      · rintro (hx | ⟨kv2, (rfl | h2), h3, h4⟩)
        · exact Or.inl (Or.inl hx)
        · exact Or.inl (Or.inr h4)
        · exact Or.inr ⟨kv2, h2, h3, h4⟩
    · rw [if_neg h, ih]
      constructor
      · rintro (hx | ⟨kv2, h2, h3, h4⟩)
        · exact Or.inl hx
        · exact Or.inr ⟨kv2, List.mem_cons_of_mem kv h2, h3, h4⟩
      · rintro (hx | ⟨kv2, h2, h3, h4⟩)
        · exact Or.inl hx
        · rcases List.mem_cons.mp h2 with rfl | h2
          · exact absurd h3 h
          · exact Or.inr ⟨kv2, h2, h3, h4⟩

/-- Membership in the exclusion set: for each token of the configured
list, either some entry of the cid to name mapping carries the token as
its name and contributes its cid as a string, or no entry does and the
token itself is the member. -/
theorem mem_excluded_cids (tokens : List Str) (channels : List Record) (x : Str) :
    (x ∈ excluded_cids tokens channels) ↔
      ∃ ex, ex ∈ tokens ∧
        ((∃ kv, kv ∈ cid_to_name channels ∧ kv.2 = ex ∧ x = strOfPy kv.1) ∨
         ((∀ kv, kv ∈ cid_to_name channels → kv.2 ≠ ex) ∧ x = ex)) := by
  unfold excluded_cids
  have main : ∀ acc, (x ∈ tokens.foldl
      (fun acc ex =>
        if ex ∈ (cid_to_name channels).map (fun kv => kv.2) then
          (cid_to_name channels).foldl
            (fun acc2 kv => if kv.2 = ex then setAdd acc2 (strOfPy kv.1) else acc2) acc
        else setAdd acc ex) acc) ↔
      (x ∈ acc ∨ ∃ ex, ex ∈ tokens ∧
        ((∃ kv, kv ∈ cid_to_name channels ∧ kv.2 = ex ∧ x = strOfPy kv.1) ∨
         ((∀ kv, kv ∈ cid_to_name channels → kv.2 ≠ ex) ∧ x = ex))) := by
    induction tokens with
    | nil => simp
    | cons ex rest ih =>
      intro acc
      simp only [List.foldl_cons]
      by_cases hm : ex ∈ (cid_to_name channels).map (fun kv => kv.2)
      · rw [if_pos hm, ih, mem_inner_fold]
        rw [List.mem_map] at hm
        obtain ⟨kvm, hkvm, hname⟩ := hm
        constructor
        · rintro ((hx | ⟨kv2, h2, h3, h4⟩) | ⟨ex2, h2, h3⟩)
          · exact Or.inl hx
          · exact Or.inr ⟨ex, List.mem_cons_self ex rest, Or.inl ⟨kv2, h2, h3, h4⟩⟩
          · exact Or.inr ⟨ex2, List.mem_cons_of_mem ex h2, h3⟩
        · rintro (hx | ⟨ex2, h2, h3⟩)
          · exact Or.inl (Or.inl hx)
          · rcases List.mem_cons.mp h2 with rfl | h2
            · rcases h3 with ⟨kv2, h4, h5, h6⟩ | ⟨hall, rfl⟩
              · exact Or.inl (Or.inr ⟨kv2, h4, h5, h6⟩)
              · exact absurd hname (hall kvm hkvm)
            · exact Or.inr ⟨ex2, h2, h3⟩
      · rw [if_neg hm, ih]
        simp only [mem_setAdd]
        rw [List.mem_map] at hm
        push_neg at hm
        constructor
        · rintro ((hx | rfl) | ⟨ex2, h2, h3⟩)
          · exact Or.inl hx
          · refine Or.inr ⟨x, List.mem_cons_self x rest, Or.inr ⟨?_, rfl⟩⟩
            intro kv hkv
            exact hm kv hkv
          · exact Or.inr ⟨ex2, List.mem_cons_of_mem ex h2, h3⟩
        · rintro (hx | ⟨ex2, h2, h3⟩)
          · exact Or.inl (Or.inl hx)
          · rcases List.mem_cons.mp h2 with rfl | h2
            · rcases h3 with ⟨kv2, h4, h5, h6⟩ | ⟨hall, rfl⟩
              · exact absurd h5 (hm kv2 h4)
              · exact Or.inl (Or.inr rfl)
            · exact Or.inr ⟨ex2, h2, h3⟩
  rw [main []]
  simp

/-- Claim C2: the unescape function applies exactly the four substitutions
backslash-s to space, backslash-slash to slash, backslash-p to pipe and
double-backslash to backslash, in that fixed order with the backslash rule
last, and on the twelve-character escaped input it returns exactly the
nine-character unescaped text. -/
theorem claim2_unescape_order :
    (∀ v : Str, _unescape v =
      pyReplace (pyReplace (pyReplace (pyReplace v
        (str "\\s") (str " ")) (str "\\/") (str "/")) (str "\\p") (str "|"))
        (str "\\\\") (str "\\"))
    ∧ _unescape (str "a\\sb\\/c\\pd\\\\e") = str "a b/c|d\\e" :=
  ⟨fun _ => rfl, by decide⟩

/-- Claim C1: for every client list and exclusion set, online_users is
exactly the clients whose client_type is the string 0 and whose cid, as a
string, is not excluded, and online_count is the length of that filtered
list. -/
theorem claim1_online_filter (clients : List Record) (excluded : List Str) :
    (∀ c, c ∈ online_users_of clients excluded ↔
      (c ∈ clients ∧ dictGet? c (str "client_type") = some (str "0")
        ∧ strOfPy (dictGet? c (str "cid")) ∉ excluded))
    ∧ online_count clients excluded = (online_users_of clients excluded).length := by
  refine ⟨fun c => ?_, rfl⟩
  unfold online_users_of
  rw [List.mem_filter]
  simp only [Bool.and_eq_true, decide_eq_true_eq, Bool.not_eq_true',
    decide_eq_false_iff_not, and_assoc]

/-- Claim C4 (amended): exclusion resolution is name-match-first over the
cid to name mapping built from the channel list: a token equal to the
mapped name of at least one cid excludes the string form of every cid
mapped to that name; a token matching no mapped name is kept as a literal
id.  The example of the spec holds: a channel Lobby with id 5 makes the
token Lobby exclude id 5, and the token 7 stays literal. -/
theorem claim4_exclusion_name_first (tokens : List Str) (channels : List Record) (x : Str) :
    ((x ∈ excluded_cids tokens channels) ↔
      ∃ ex, ex ∈ tokens ∧
        ((∃ kv, kv ∈ cid_to_name channels ∧ kv.2 = ex ∧ x = strOfPy kv.1) ∨
         ((∀ kv, kv ∈ cid_to_name channels → kv.2 ≠ ex) ∧ x = ex)))
    ∧ excluded_cids [str "Lobby", str "7"]
        [[(str "cid", str "5"), (str "channel_name", str "Lobby")]] = [str "5", str "7"] :=
  ⟨mem_excluded_cids tokens channels x, by decide⟩

/-- The duplicate-cid channel list of the C4 counterexample: two channels
report cid 1, the dict comprehension keeps only the later name B, so the
name A of the first channel is no longer matchable. -/
def dupChannels : List Record :=
  [[(str "cid", str "1"), (str "channel_name", str "A")],
   [(str "cid", str "1"), (str "channel_name", str "B")]]

/-- Claim C4 counterexample: the token A exactly equals the first
channel's name, yet its channel id 1 is not excluded; the token is kept
as the literal id A instead. -/
theorem claim4_counterexample :
    chanName [(str "cid", str "1"), (str "channel_name", str "A")] = str "A"
    ∧ [(str "cid", str "1"), (str "channel_name", str "A")] ∈ dupChannels
    ∧ strOfPy (dictGet? [(str "cid", str "1"), (str "channel_name", str "A")] (str "cid"))
        = str "1"
    ∧ (str "1" ∉ excluded_cids [str "A"] dupChannels)
    ∧ excluded_cids [str "A"] dupChannels = [str "A"] :=
  ⟨by decide, by decide, by decide, by decide, by decide⟩

/-- Claim C9 (amended): max_clients is int of the virtualserver_maxclients
field with the string 0 as default: an absent field yields 0, but a
present unparseable field raises ValueError (failing the query) and a
negative field value passes through unclamped. -/
theorem claim9_max_clients (si : Record) (v : Str) :
    (dictGet? si (str "virtualserver_maxclients") = none →
       computeMaxClients si = Except.ok 0)
    ∧ (dictGet? si (str "virtualserver_maxclients") = some v →
       computeMaxClients si = pyInt v)
    ∧ computeMaxClients [(str "virtualserver_maxclients", str "-5")] = Except.ok (-5) := by
  refine ⟨?_, ?_, by decide⟩
  · intro h
    unfold computeMaxClients dictGetD
    rw [h]
    decide
  · intro h
    unfold computeMaxClients dictGetD
    rw [h]
    rfl

/-- Claim C9 counterexample: a serverinfo response whose
virtualserver_maxclients is present but unparseable makes the raw query
fail with a ValueError message instead of defaulting max_clients to 0. -/
theorem claim9_counterexample :
    dictGet?
      ((recvParse (pyDecodeIgnore
        (asciiBytes "virtualserver_name=Test virtualserver_maxclients=abc\nerror id=0 msg=ok\n"))).1.headD [])
      (str "virtualserver_maxclients") = some (str "abc")
    ∧ (rawPath cfgO true respAbc).2.1 = false
    ∧ (rawPath cfgO true respAbc).2.2 =
        errResult (str "TCP 回退查询失败: invalid literal for int() with base 10: 'abc'") :=
  ⟨by decide, by decide, by decide⟩

/-- Claim C8: when the user list is included, online_users holds the
first min(10, n) nicknames of the n filtered online users in listing
order, and more_users is present exactly when n exceeds 10, holding
n - 10; without the flag nothing is added. -/
theorem claim8_user_list_cap (online : List Record) (r0 : ResultDict)
    (h : dictGet? r0 (str "more_users") = none) :
    dictGet? (addUserList true online r0) (str "online_users")
      = some (Val.ls ((online.take 10).map nickOf))
    ∧ ((online.take 10).map nickOf).length = min 10 online.length
    ∧ dictGet? (addUserList true online r0) (str "more_users")
      = (if 10 < online.length then some (Val.n (online.length - 10)) else none)
    ∧ addUserList false online r0 = r0 := by
  have hKM : ¬ (str "online_users") = (str "more_users") := by decide
  have hMK : ¬ (str "more_users") = (str "online_users") := by decide
  refine ⟨?_, by simp [List.length_map, List.length_take], ?_, rfl⟩
  · unfold addUserList
    rw [if_pos rfl]
    by_cases hl : online.length > 10
    · rw [if_pos hl, dictGet?_dictSet, if_neg hKM, dictGet?_dictSet, if_pos rfl]
    · rw [if_neg hl, dictGet?_dictSet, if_pos rfl]
  · unfold addUserList
    rw [if_pos rfl]
    by_cases hl : online.length > 10
    · rw [if_pos hl, dictGet?_dictSet, if_pos rfl, if_pos hl]
    · rw [if_neg hl, dictGet?_dictSet, if_neg hMK, h, if_neg hl]

/-- Claim C8 witness: with eleven online users the list has the first ten
nicknames and more_users is 1. -/
theorem claim8_witness :
    dictGet? (addUserList true (List.replicate 11 ([] : Record)) []) (str "online_users")
      = some (Val.ls (((List.replicate 11 ([] : Record)).take 10).map nickOf))
    ∧ dictGet? (addUserList true (List.replicate 11 ([] : Record)) []) (str "more_users")
      = some (Val.n 1) := by
  have h := claim8_user_list_cap (List.replicate 11 ([] : Record)) [] (by decide)
  refine ⟨h.1, ?_⟩
  rw [h.2.2.1]
  decide

/-- A scripted library run in which every step succeeds with empty
lists. -/
def libAllOk : LibScript :=
  { importOk := true, connectOk := true, loginOk := true, useOk := true,
    serverinfoRes := Except.ok [], clientsRes := Except.ok [],
    channelsRes := Except.ok [] }

/-- Claim C7: with both password and api-key empty the query returns the
configuration error immediately: no library or socket connection is
attempted (zero connections, no raw session) whatever the transcripts
hold. -/
theorem claim7_config_guard (cfg : Config) (L : LibScript) (connectOk : Bool)
    (responses : List (List Nat)) (hp : cfg.password = []) (ha : cfg.api_key = []) :
    performQuery cfg L connectOk responses =
      ({ connections := 0, opened := false, closed := false }, none,
       (false, configErrResult)) := by
  unfold performQuery
  rw [hp, ha]
  rfl

/-- Claim C7 witness: the guard fires on a concrete credential-free
configuration. -/
theorem claim7_witness :
    performQuery { cfgO with password := [], api_key := [] } libAllOk true respAbc =
      ({ connections := 0, opened := false, closed := false }, none,
       (false, configErrResult)) :=
  claim7_config_guard { cfgO with password := [], api_key := [] } libAllOk true respAbc
    rfl rfl

/-- Claim C10: record parsing is total and behaves as stated on every
input: lookups in a parsed record find the last equals-bearing token with
that key (duplicates keep the last occurrence, equals-less tokens are
skipped); an accepted token splits only at its first equals sign, later
ones staying in the unescaped value; pipe splitting distributes over an
explicit pipe and blank segments contribute nothing; decoding never fails,
is the identity on ASCII and drops undecodable bytes. -/
theorem claim10_parsing_total :
    (∀ line k, dictGet? (_parse_entry line) k =
       match ((partsOf line).filterMap kvOf).reverse.find? (fun kv => decide (kv.1 = k)) with
       | some kv => some kv.2
       | none => none)
    ∧ (∀ p k v, kvOf p = some (k, v) → '=' ∉ k ∧ ∃ w, p = k ++ '=' :: w ∧ v = _unescape w)
    ∧ (∀ p, '=' ∉ p → kvOf p = none)
    ∧ (∀ e1 e2, lineRecords (e1 ++ '|' :: e2) = lineRecords e1 ++ lineRecords e2)
    ∧ (∀ e, pyStrip e = [] → lineRecords e = [])
    ∧ (∀ bs, (∀ b ∈ bs, b < 0x80) → pyDecodeIgnore bs = bs.map Char.ofNat)
    ∧ pyDecodeIgnore [0x61, 0xFF, 0x62] = str "ab" := by
  refine ⟨dictGet?_parse_entry, kvOf_eq_some, kvOf_eq_none, ?_, ?_, ?_, by decide⟩
  · intro e1 e2
    unfold lineRecords
    rw [splitChar_append, List.filter_append, List.map_append]
  · intro e he
    have hnm : '|' ∉ e := by
      intro hmem
      have := (pyStrip_eq_nil_iff e).mp he '|' hmem
      simp [pyIsSpace] at this
    unfold lineRecords
    rw [splitChar_of_not_mem _ _ hnm]
    simp [List.filter, he]
  · intro bs h
    exact decodeFuel_ascii bs.length bs (Nat.le_refl _) h

/-- Claim C3: the raw codec takes the last non-blank line as the status
line exactly when it opens with the error marker, removing it from the
data lines; otherwise it synthesizes a status with id -1 (no response
when there is no line at all, no error line otherwise); and a command is
successful exactly when the status id field is the string 0, both
synthesized statuses failing that test. -/
theorem claim3_status_codec (text : Str) :
    ((pySplitlines text).reverse.find? (fun l => !(pyStrip l).isEmpty) = none →
       recvParse text = ([], [(str "id", str "-1"), (str "msg", str "no response")]))
    ∧ (∀ last, (pySplitlines text).reverse.find? (fun l => !(pyStrip l).isEmpty) = some last →
        (startsWith errMark last = true →
           (recvParse text).2 = _parse_entry last
           ∧ (recvParse text).1 = entriesOf ((nonblankLines text).dropLast))
        ∧ (startsWith errMark last = false →
           (recvParse text).2 = [(str "id", str "-1"), (str "msg", str "no error line")]
           ∧ (recvParse text).1 = entriesOf (nonblankLines text)))
    ∧ (errOk (recvParse text).2 = true ↔
        dictGet? (recvParse text).2 (str "id") = some (str "0"))
    ∧ errOk [(str "id", str "-1"), (str "msg", str "no response")] = false
    ∧ errOk [(str "id", str "-1"), (str "msg", str "no error line")] = false := by
  have hbridge : (nonblankLines text).getLast? =
      (pySplitlines text).reverse.find? (fun l => !(pyStrip l).isEmpty) :=
    getLast?_filter _ _
  refine ⟨?_, ?_, ?_, by decide, by decide⟩
  · intro h
    simp only [recvParse]
    rw [hbridge, h]
  · intro last hlast
    have hget : (nonblankLines text).getLast? = some last := hbridge.trans hlast
    constructor
    · intro hpre
      simp only [recvParse]
      rw [hget]
      simp only [if_pos hpre]
      exact ⟨by trivial, by trivial⟩
    · intro hpre
      simp only [recvParse]
      rw [hget]
      simp only [hpre, Bool.false_eq_true, if_false]
      exact ⟨by trivial, by trivial⟩
  · unfold errOk
    constructor
    · exact of_decide_eq_true
    · exact decide_eq_true

/-- Claim C5 (amended): the library session is closed on every exit once
opened (the finally clause), and the raw-socket session is closed on
every non-exceptional exit; a Python exception escaping the raw try
block, by contrast, leaves the socket open. -/
theorem claim5_session_close (cfg : Config) (L : LibScript) (st0 : RawSt)
    (r : Bool × ResultDict) :
    ((libPath cfg L).1.opened = true → (libPath cfg L).1.closed = true)
    ∧ ((rawTry cfg st0).2 = Except.ok r → (rawTry cfg st0).1.closed = true) := by
  constructor
  · cases hI : L.importOk
    · simp [libPath, hI]
    · cases hC : L.connectOk
      · simp [libPath, hI, hC]
      · cases hB : libBody cfg L <;> simp [libPath, hI, hC, hB]
  · dsimp only [rawTry, finishRaw, sendRecv]
    repeat' split
    all_goals intro h
    all_goals first
      | rfl
      | simp at h

/-- Claim C5 counterexample: with the library unavailable and a serverinfo
response whose virtualserver_maxclients is unparseable, the query exits
through the exception handler with the raw socket opened and never
closed. -/
theorem claim5_counterexample :
    (performQuery cfgO { libAllOk with importOk := false } true respAbc).2.2.1 = false
    ∧ ∃ rs, (performQuery cfgO { libAllOk with importOk := false } true respAbc).2.1 = some rs
        ∧ rs.opened = true ∧ rs.closed = false :=
  ⟨by decide, (rawPath cfgO true respAbc).1, by decide, by decide, by decide⟩

/-- Claim C6 (amended): a non-zero status id at login, use or serverinfo
stops the raw query at that step, returning the corresponding error with
no later protocol command issued; the clientlist status, by contrast, is
never checked and the channellist status is discarded, so after the first
three steps succeed every remaining command is sent whatever statuses come
back. -/
theorem claim6_short_circuit (cfg : Config) (r0 r1 r2 r3 r4 r5 : List Nat)
    (rest : List (List Nat)) (m : Int) :
    (∀ responses : List (List Nat),
       errOk (recvParse (pyDecodeIgnore (responses.headD []))).2 = false →
       (rawTry cfg (initRaw responses)).1.sent = [loginCmd cfg]
       ∧ (rawTry cfg (initRaw responses)).2 = Except.ok (false,
            errResult (str "ServerQuery 登录失败: "
              ++ dictGetD (recvParse (pyDecodeIgnore (responses.headD []))).2 (str "msg") [])))
    ∧ (errOk (recvParse (pyDecodeIgnore r0)).2 = true →
       errOk (recvParse (pyDecodeIgnore r1)).2 = false →
       (rawTry cfg (initRaw (r0 :: r1 :: rest))).1.sent = [loginCmd cfg, useCmd cfg]
       ∧ (rawTry cfg (initRaw (r0 :: r1 :: rest))).2 = Except.ok (false,
            errResult (str "use sid 失败: "
              ++ dictGetD (recvParse (pyDecodeIgnore r1)).2 (str "msg") [])))
    ∧ (errOk (recvParse (pyDecodeIgnore r0)).2 = true →
       errOk (recvParse (pyDecodeIgnore r1)).2 = true →
       errOk (recvParse (pyDecodeIgnore r2)).2 = false →
       (rawTry cfg (initRaw (r0 :: r1 :: r2 :: rest))).1.sent =
         [loginCmd cfg, useCmd cfg, str "serverinfo"]
       ∧ (rawTry cfg (initRaw (r0 :: r1 :: r2 :: rest))).2 = Except.ok (false,
            errResult (str "serverinfo 失败: "
              ++ dictGetD (recvParse (pyDecodeIgnore r2)).2 (str "msg") [])))
    ∧ (errOk (recvParse (pyDecodeIgnore r0)).2 = true →
       errOk (recvParse (pyDecodeIgnore r1)).2 = true →
       errOk (recvParse (pyDecodeIgnore r2)).2 = true →
       computeMaxClients ((recvParse (pyDecodeIgnore r2)).1.headD []) = Except.ok m →
       cfg.query_type ≠ str "server_status" →
       (rawTry cfg (initRaw (r0 :: r1 :: r2 :: r3 :: r4 :: r5 :: rest))).1.sent =
         [loginCmd cfg, useCmd cfg, str "serverinfo", str "clientlist", str "channellist",
          str "quit"]) := by
  refine ⟨?_, ?_, ?_, ?_⟩
  · intro responses h
    have h2 : errOk (recvParse (pyDecodeIgnore (responses.head?.getD []))).2 = false := by
      simpa using h
    constructor <;>
      simp [rawTry, sendRecv, initRaw, h2]
  · intro h0 h1
    constructor <;>
      simp [rawTry, sendRecv, initRaw, h0, h1]
  · intro h0 h1 h2
    constructor <;>
      simp [rawTry, sendRecv, initRaw, h0, h1, h2]
  · intro h0 h1 h2 hm hq
    have hm2 : computeMaxClients ((recvParse (pyDecodeIgnore r2)).1.head?.getD [])
        = Except.ok m := by simpa using hm
    simp [rawTry, finishRaw, sendRecv, initRaw, h0, h1, h2, hm2, hq]

/-- Claim C6 counterexample: the clientlist step reports status id 1, yet
the query does not stop there: channellist and quit are still sent and the
query returns success with zero online users. -/
theorem claim6_counterexample :
    errOk (recvParse (pyDecodeIgnore (asciiBytes "error id=1 msg=denied\n"))).2 = false
    ∧ (rawTry cfgO (initRaw respClientFail)).2 =
        Except.ok (true, baseResult (str "Test") 0 32)
    ∧ (rawTry cfgO (initRaw respClientFail)).1.sent =
        [loginCmd cfgO, useCmd cfgO, str "serverinfo", str "clientlist", str "channellist",
         str "quit"] :=
  ⟨by decide, by decide, by decide⟩
